import Mathlib

/-!
Shallow embedding of the envelope-enforcement diagnostic pipeline in
`envelope-diagnostic/scripts/summarize_runs.py`.

Python floats are embedded as rationals (`ℚ`); JSON-optional fields as
`Option`.  Missing float values (pandas `NaN`) are embedded as `none`, and
the arithmetic on possibly-missing metric columns is mirrored by
`subOpt`/`snapOpt`, which propagate `none` exactly as pandas propagates
`NaN` through subtraction and through a (false) `abs < 1e-6` comparison.
The fatal path (a `KeyError` while resolving effective parameters from a
session report) is embedded as `Except.error`; a silently skipped run is
`Except.ok none`.
-/

/-- One `{min, max}` bounds object of an envelope JSON document. -/
structure Bounds where
  min : ℚ
  max : ℚ
deriving DecidableEq

/-- An envelope document: per-parameter bounds (each key optional in the
JSON), plus the `configHash` read by `summarize_l2_enforcement`. -/
structure Envelope where
  tempo_bpm : Option Bounds
  gain : Option Bounds
  accent_ratio : Option Bounds
  configHash : Option String
deriving DecidableEq

/-- The raw parameter payload shape shared by `params_requested` (reward
spec) and `raw_effective` / `effective` (session report). -/
structure Params where
  tempo_bpm : ℚ
  gain_db : ℚ
  gain_raw : ℚ
  gain_unit : Option String
  accent_ratio : ℚ
  accent_pct : ℚ
deriving DecidableEq

/-- The per-run `l1metrics.json` document (all fields optional). -/
structure Metrics where
  integrated_lufs : Option ℚ
  lra_lu : Option ℚ
  onset_density_eps : Option ℚ
  peak_lufs : Option ℚ
  audio_path : Option String
deriving DecidableEq

/-- The per-run `reward_spec.json` document. -/
structure RewardSpec where
  params_requested : Params
  pattern_label : Option String
deriving DecidableEq

/-- The optional per-run `sessionReport.json` document: `params` may carry
`raw_effective` (preferred) and/or `effective` (legacy fallback). -/
structure SessionReport where
  raw_effective : Option Params
  effective : Option Params
  patternLabel : Option String
  configHash : Option String
deriving DecidableEq

/-- One run location as enumerated by `list_runs`, together with the
artifacts found under it (a `none` artifact is an absent file). `seed` is
already parsed to an integer as in `int(seed)`. -/
structure RunInput where
  condition : String
  trace_id : String
  seed : ℤ
  run_path : String
  l1metrics : Option Metrics
  reward_spec : Option RewardSpec
  sessionReport : Option SessionReport
deriving DecidableEq

/-- One row of the flat run table built by `summarize_runs`
(the `row` dict, lines 96-129). -/
structure RunRecord where
  trace_id : String
  seed : ℤ
  condition : String
  pattern_label : Option String
  config_hash : Option String
  tempo_req : ℚ
  tempo_eff : ℚ
  tempo_req_oob : Option ℚ
  tempo_eff_oob : Option ℚ
  tempo_clamped : ℚ
  tempo_delta : ℚ
  gain_req : ℚ
  gain_eff : ℚ
  gain_req_oob : Option ℚ
  gain_eff_oob : Option ℚ
  gain_clamped : ℚ
  gain_delta : ℚ
  gain_unit : Option String
  accent_req : ℚ
  accent_eff : ℚ
  accent_req_oob : Option ℚ
  accent_eff_oob : Option ℚ
  accent_clamped : ℚ
  accent_delta : ℚ
  accent_pct_req : ℚ
  accent_pct_eff : ℚ
  integrated_lufs : Option ℚ
  lra_lu : Option ℚ
  onset_density_eps : Option ℚ
  peak_lufs : Option ℚ
  audio_path : Option String
  session_report_path : Option String
deriving DecidableEq

/-- Source `oob_flag(value, bounds)`: `int(value < min or value > max)` over the bounds dict. -/
def oob_flag (value : ℚ) (bounds : Bounds) : ℚ :=
  if value < bounds.min ∨ value > bounds.max then 1 else 0

/-- Resolution of effective parameters from a session report
(lines 65-70): prefer `params['raw_effective']`, fall back to
`params['effective']`; `none` means the fallback key is also missing,
which raises a `KeyError` in the source. -/
def sessionEffective (s : SessionReport) : Option Params :=
  match s.raw_effective with
  | some p => some p
  | none => s.effective

/-- Construction of one `row` dict from the resolved inputs
(lines 84-129 of `summarize_runs`). -/
def mkRow (condition trace_id : String) (seed : ℤ) (run_path : String)
    (envelope : Option Envelope) (requested effective : Params)
    (pattern_label config_hash : Option String) (metrics : Metrics)
    (session_present : Bool) : RunRecord :=
  let tempo_bounds := match envelope with | some e => e.tempo_bpm | none => none
  let gain_bounds := match envelope with | some e => e.gain | none => none
  let accent_bounds := match envelope with | some e => e.accent_ratio | none => none
  { trace_id := trace_id
    seed := seed
    condition := condition
    pattern_label := pattern_label
    config_hash := config_hash
    tempo_req := requested.tempo_bpm
    tempo_eff := effective.tempo_bpm
    tempo_req_oob := Option.map (oob_flag requested.tempo_bpm) tempo_bounds
    tempo_eff_oob := Option.map (oob_flag effective.tempo_bpm) tempo_bounds
    tempo_clamped := if requested.tempo_bpm = effective.tempo_bpm then 0 else 1
    tempo_delta := effective.tempo_bpm - requested.tempo_bpm
    gain_req := requested.gain_db
    gain_eff := effective.gain_db
    gain_req_oob := Option.map (oob_flag requested.gain_raw) gain_bounds
    gain_eff_oob := Option.map (oob_flag effective.gain_raw) gain_bounds
    gain_clamped := if requested.gain_db = effective.gain_db then 0 else 1
    gain_delta := effective.gain_db - requested.gain_db
    gain_unit := requested.gain_unit
    accent_req := requested.accent_ratio
    accent_eff := effective.accent_ratio
    accent_req_oob := Option.map (oob_flag requested.accent_ratio) accent_bounds
    accent_eff_oob := Option.map (oob_flag effective.accent_ratio) accent_bounds
    accent_clamped := if requested.accent_ratio = effective.accent_ratio then 0 else 1
    accent_delta := effective.accent_ratio - requested.accent_ratio
    accent_pct_req := requested.accent_pct
    accent_pct_eff := effective.accent_pct
    integrated_lufs := metrics.integrated_lufs
    lra_lu := metrics.lra_lu
    onset_density_eps := metrics.onset_density_eps
    peak_lufs := metrics.peak_lufs
    audio_path := metrics.audio_path
    session_report_path :=
      if session_present then some (run_path ++ "/sessionReport.json") else none }

/-- The body of the per-run loop of `summarize_runs` (lines 51-130) for a
single discovered run: `ok none` is the silent `continue` on a missing
required artifact, `error` is the `KeyError` raised when a session report
has neither `raw_effective` nor `effective`, and `ok (some r)` appends a
row. The envelope is looked up in the catalog by condition name. -/
def buildRow (envelope_map : List (String × Envelope)) (run : RunInput) :
    Except String (Option RunRecord) :=
  match run.l1metrics, run.reward_spec with
  | some metrics, some reward =>
    match run.sessionReport with
    | some session =>
      match sessionEffective session with
      | some effective =>
        .ok (some (mkRow run.condition run.trace_id run.seed run.run_path
          (List.lookup run.condition envelope_map) reward.params_requested effective
          session.patternLabel session.configHash metrics true))
      | none => .error "KeyError: effective"
    | none =>
      .ok (some (mkRow run.condition run.trace_id run.seed run.run_path
        (List.lookup run.condition envelope_map) reward.params_requested
        reward.params_requested reward.pattern_label none metrics false))
  | _, _ => .ok none

/-- The row-collection loop of `summarize_runs`: skipped runs contribute
nothing, the first `KeyError` aborts, otherwise rows accumulate in
discovery order. -/
def summarize_runs (envelope_map : List (String × Envelope)) :
    List RunInput → Except String (List RunRecord)
  | [] => .ok []
  | run :: rest =>
    match buildRow envelope_map run with
    | .error e => .error e
    | .ok none => summarize_runs envelope_map rest
    | .ok (some r) =>
      match summarize_runs envelope_map rest with
      | .error e => .error e
      | .ok rows => .ok (r :: rows)

/-- The `(trace_id, seed)` join key of a row. -/
def runKey (r : RunRecord) : String × ℤ := (r.trace_id, r.seed)

/-- One row of a paired summary table
(the dict appended at lines 169-188). -/
structure PairedRow where
  trace_id : String
  seed : ℤ
  pattern_label : Option String
  baseline_integrated_lufs : Option ℚ
  constrained_integrated_lufs : Option ℚ
  delta_integrated_lufs : Option ℚ
  baseline_lra_lu : Option ℚ
  constrained_lra_lu : Option ℚ
  delta_lra_lu : Option ℚ
  baseline_onset_density_eps : Option ℚ
  constrained_onset_density_eps : Option ℚ
  delta_onset_density_eps : Option ℚ
  tempo_clamped : ℚ
  gain_clamped : ℚ
  accent_clamped : ℚ
  tempo_delta : ℚ
  gain_delta : ℚ
  accent_delta : ℚ
deriving DecidableEq

/-- Pointwise subtraction of possibly-missing metric values; `none`
(pandas `NaN`) propagates. -/
def subOpt (a b : Option ℚ) : Option ℚ :=
  match a, b with
  | some x, some y => some (x - y)
  | _, _ => none

/-- The inline snap of lines 161-163: `0.0 if abs(delta) < 1e-6 else delta`.
On a missing (`NaN`) delta the comparison is false and the value is kept. -/
def snapOpt (d : Option ℚ) : Option ℚ :=
  match d with
  | some v => if |v| < 1/1000000 then some 0 else some v
  | none => none

/-- One iteration of the loop over merged rows in
`build_paired_summary_for_condition` (lines 149-188): `rb` is the
baseline-side row, `rc` the constrained-side row of the joined pair. -/
def pairRow (rb rc : RunRecord) : PairedRow :=
  let deltas : Option ℚ × Option ℚ × Option ℚ :=
    if rc.tempo_clamped = 1 ∨ rc.gain_clamped = 1 ∨ rc.accent_clamped = 1 then
      (snapOpt (subOpt rc.integrated_lufs rb.integrated_lufs),
       snapOpt (subOpt rc.lra_lu rb.lra_lu),
       snapOpt (subOpt rc.onset_density_eps rb.onset_density_eps))
    else
      (some 0, some 0, some 0)
  { trace_id := rb.trace_id
    seed := rb.seed
    pattern_label := rc.pattern_label
    baseline_integrated_lufs := rb.integrated_lufs
    constrained_integrated_lufs := rc.integrated_lufs
    delta_integrated_lufs := deltas.1
    baseline_lra_lu := rb.lra_lu
    constrained_lra_lu := rc.lra_lu
    delta_lra_lu := deltas.2.1
    baseline_onset_density_eps := rb.onset_density_eps
    constrained_onset_density_eps := rc.onset_density_eps
    delta_onset_density_eps := deltas.2.2
    tempo_clamped := rc.tempo_clamped
    gain_clamped := rc.gain_clamped
    accent_clamped := rc.accent_clamped
    tempo_delta := rc.tempo_delta
    gain_delta := rc.gain_delta
    accent_delta := rc.accent_delta }

/-- Source `build_paired_summary_for_condition` (lines 144-191): inner-merge of
the baseline subset with the target-condition subset on
`(trace_id, seed)`, then one `PairedRow` per joined pair. -/
def build_paired_summary_for_condition (df : List RunRecord) (condition : String) :
    List PairedRow :=
  let base := df.filter fun r => decide (r.condition = "baseline")
  let constrained := df.filter fun r => decide (r.condition = condition)
  base.flatMap fun rb =>
    (constrained.filter fun rc =>
      decide (rc.trace_id = rb.trace_id ∧ rc.seed = rb.seed)).map
      fun rc => pairRow rb rc

/-- One `summary` dict of `summarize_l2_enforcement` (lines 216-237). -/
structure EnforcementSummary where
  condition : String
  config_hash : Option String
  tempo_requested_oob_rate : ℚ
  tempo_clamp_rate : ℚ
  tempo_shift_mean : ℚ
  tempo_shift_p95 : ℚ
  tempo_shift_max : ℚ
  tempo_effective_oob_rate : ℚ
  gain_requested_oob_rate : ℚ
  gain_clamp_rate : ℚ
  gain_shift_mean : ℚ
  gain_shift_p95 : ℚ
  gain_shift_max : ℚ
  gain_effective_oob_rate : ℚ
  accent_requested_oob_rate : ℚ
  accent_clamp_rate : ℚ
  accent_shift_mean : ℚ
  accent_shift_p95 : ℚ
  accent_shift_max : ℚ
  accent_effective_oob_rate : ℚ
deriving DecidableEq

/-- The local `pct(col)` of `summarize_l2_enforcement` (lines 203-204):
`subset[col].fillna(0).sum() / len(subset)` with `0` for an empty subset.
A column is a field accessor; plain (never-missing) numeric columns are
passed as `fun r => some (... r)`. -/
def pct (subset : List RunRecord) (col : RunRecord → Option ℚ) : ℚ :=
  if subset.length = 0 then 0
  else (subset.map fun r => (col r).getD 0).sum / (subset.length : ℚ)

/-- Ascending sort of a value column, as pandas sorts before computing a
quantile. -/
def sortAsc (l : List ℚ) : List ℚ := List.insertionSort (· ≤ ·) l

/-- Linear interpolation of a sorted value list at fractional position
`h`: `v[⌊h⌋] + (h − ⌊h⌋) * (v[⌊h⌋ + 1] − v[⌊h⌋])`, with the second order
statistic defaulting to the first past the end of the list. -/
def interpAt (sorted : List ℚ) (h : ℚ) : ℚ :=
  sorted.getD (⌊h⌋).toNat 0 +
    (h - (⌊h⌋ : ℚ)) *
      (sorted.getD ((⌊h⌋).toNat + 1) (sorted.getD (⌊h⌋).toNat 0) -
        sorted.getD (⌊h⌋).toNat 0)

/-- Pandas `Series.quantile(0.95)` with the default linear interpolation:
position `h = 0.95 * (n - 1)` in the ascending sort, interpolating between
the neighbouring order statistics. -/
def quantile95 (vals : List ℚ) : ℚ :=
  let sorted := sortAsc vals
  let n := sorted.length
  interpAt sorted ((19/20) * ((n : ℚ) - 1))

/-- The `{mean, p95, max}` dict returned by the local `shift_stats`. -/
structure ShiftStats where
  mean : ℚ
  p95 : ℚ
  max : ℚ
deriving DecidableEq

/-- The local `shift_stats(col)` of `summarize_l2_enforcement`
(lines 206-214): statistics of `subset[col].abs().dropna()`, all zero on
an empty value list.  Delta columns of the flat table are never missing
in this embedding, so `dropna` is the identity here. -/
def shift_stats (subset : List RunRecord) (col : RunRecord → ℚ) : ShiftStats :=
  match subset.map fun r => |col r| with
  | [] => { mean := 0, p95 := 0, max := 0 }
  | v :: rest =>
    { mean := (v :: rest).sum / ((v :: rest).length : ℚ)
      p95 := quantile95 (v :: rest)
      max := rest.foldl max v }

/-- The `summary` dict built for one constrained condition
(lines 199-237). -/
def l2_row (condition : String) (envelope : Envelope) (df : List RunRecord) :
    EnforcementSummary :=
  let subset := df.filter fun r => decide (r.condition = condition)
  { condition := condition
    config_hash := envelope.configHash
    tempo_requested_oob_rate := pct subset fun r => r.tempo_req_oob
    tempo_clamp_rate := pct subset fun r => some r.tempo_clamped
    tempo_shift_mean := (shift_stats subset fun r => r.tempo_delta).mean
    tempo_shift_p95 := (shift_stats subset fun r => r.tempo_delta).p95
    tempo_shift_max := (shift_stats subset fun r => r.tempo_delta).max
    tempo_effective_oob_rate := pct subset fun r => r.tempo_eff_oob
    gain_requested_oob_rate := pct subset fun r => r.gain_req_oob
    gain_clamp_rate := pct subset fun r => some r.gain_clamped
    gain_shift_mean := (shift_stats subset fun r => r.gain_delta).mean
    gain_shift_p95 := (shift_stats subset fun r => r.gain_delta).p95
    gain_shift_max := (shift_stats subset fun r => r.gain_delta).max
    gain_effective_oob_rate := pct subset fun r => r.gain_eff_oob
    accent_requested_oob_rate := pct subset fun r => r.accent_req_oob
    accent_clamp_rate := pct subset fun r => some r.accent_clamped
    accent_shift_mean := (shift_stats subset fun r => r.accent_delta).mean
    accent_shift_p95 := (shift_stats subset fun r => r.accent_delta).p95
    accent_shift_max := (shift_stats subset fun r => r.accent_delta).max
    accent_effective_oob_rate := pct subset fun r => r.accent_eff_oob }

/-- Source `summarize_l2_enforcement` (lines 194-243): one summary per catalog
entry, skipping `baseline` and conditions whose subset of the flat table
is empty. -/
def summarize_l2_enforcement (envelope_map : List (String × Envelope))
    (df : List RunRecord) : List EnforcementSummary :=
  match envelope_map with
  | [] => []
  | (condition, envelope) :: rest =>
    if condition = "baseline" then summarize_l2_enforcement rest df
    else if (df.filter fun r => decide (r.condition = condition)).isEmpty then
      summarize_l2_enforcement rest df
    else l2_row condition envelope df :: summarize_l2_enforcement rest df

/-- Requested parameters shared by the C1 witness rows (tempo 120,
gain 0 dB at raw 1/2, accent ratio 1/2). -/
def w1params : Params :=
  { tempo_bpm := 120, gain_db := 0, gain_raw := 1/2, gain_unit := some "db"
    accent_ratio := 1/2, accent_pct := 50 }

/-- Baseline-side metrics of the C1 witness pair. -/
def w1metricsBase : Metrics :=
  { integrated_lufs := some (-20), lra_lu := some 5, onset_density_eps := some 2
    peak_lufs := some (-1), audio_path := some "a.wav" }

/-- Constrained-side metrics of the C1 witness pair, differing from the
baseline by a small stochastic drift. -/
def w1metricsCons : Metrics :=
  { integrated_lufs := some (-199999995/10000000), lra_lu := some 5
    onset_density_eps := some 2, peak_lufs := some (-1), audio_path := some "b.wav" }

/-- Baseline row of the C1 witness table. -/
def w1base : RunRecord :=
  mkRow "baseline" "t1" 7 "p1" none w1params w1params none none w1metricsBase false

/-- Constrained row of the C1 witness table: no parameter clamped. -/
def w1cons : RunRecord :=
  mkRow "constrained_default" "t1" 7 "p2" none w1params w1params none none
    w1metricsCons false

/-- Reward spec of the C3 witness run. -/
def w3reward : RewardSpec :=
  { params_requested := w1params, pattern_label := some "pat" }

/-- The single discovered run of the C3 witness table. -/
def w3run : RunInput :=
  { condition := "baseline", trace_id := "t1", seed := 3, run_path := "p3"
    l1metrics := some w1metricsBase, reward_spec := some w3reward
    sessionReport := none }

/-- The row `summarize_runs` builds for `w3run`. -/
def w3rec : RunRecord :=
  mkRow "baseline" "t1" 3 "p3" none w1params w1params (some "pat") none
    w1metricsBase false

/-- The single discovered run of the C7 witness: no session report. -/
def w7run : RunInput :=
  { condition := "constrained_default", trace_id := "t7", seed := 9, run_path := "p7"
    l1metrics := some w1metricsBase, reward_spec := some w3reward
    sessionReport := none }

/-- The row `buildRow` emits for `w7run`. -/
def w7rec : RunRecord :=
  mkRow "constrained_default" "t7" 9 "p7" none w1params w1params (some "pat") none
    w1metricsBase false

/-- A discovered run whose metrics artifact is absent. -/
def w8run : RunInput :=
  { condition := "baseline", trace_id := "t8", seed := 0, run_path := "p8"
    l1metrics := none, reward_spec := some w3reward, sessionReport := none }

/-- Envelope of the C4 witness: tempo bounds [60, 180]. -/
def w4env : Envelope :=
  { tempo_bpm := some { min := 60, max := 180 }, gain := some { min := 0, max := 1 }
    accent_ratio := some { min := 0, max := 1 }, configHash := some "h4" }

/-- Requested parameters of the C4 witness: tempo 200, out of bounds. -/
def w4req : Params :=
  { tempo_bpm := 200, gain_db := 0, gain_raw := 1/2, gain_unit := some "db"
    accent_ratio := 1/2, accent_pct := 50 }

/-- Effective parameters of the C4 witness: tempo clamped to 180. -/
def w4eff : Params :=
  { tempo_bpm := 180, gain_db := 0, gain_raw := 1/2, gain_unit := some "db"
    accent_ratio := 1/2, accent_pct := 50 }

/-- An envelope with gain bounds [0, 1] only, exhibiting the gain
raw/decibel divergence. -/
def divergeEnv : Envelope :=
  { tempo_bpm := none, gain := some { min := 0, max := 1 }
    accent_ratio := none, configHash := none }

/-- Requested parameters whose raw gain (1/2) is within the gain bounds
while the decibel gain (-3) differs from the effective one. -/
def divergeReq : Params :=
  { tempo_bpm := 120, gain_db := -3, gain_raw := 1/2, gain_unit := none
    accent_ratio := 1/2, accent_pct := 50 }

/-- Effective parameters with the same raw gain (1/2) but decibel gain
-6, so the gain clamp flag fires although the bounds-tested value never
changed. -/
def divergeEff : Params :=
  { tempo_bpm := 120, gain_db := -6, gain_raw := 1/2, gain_unit := none
    accent_ratio := 1/2, accent_pct := 50 }

/-- Requested parameters of the C10 witness (raw gain 2, above the gain
bound's max of 1, while the decibel values coincide). -/
def w10req : Params :=
  { tempo_bpm := 120, gain_db := 3, gain_raw := 2, gain_unit := some "db"
    accent_ratio := 1/2, accent_pct := 50 }

/-- Requested parameters of the C2 witness constrained run (tempo 200). -/
def w2req : Params :=
  { tempo_bpm := 200, gain_db := 0, gain_raw := 1/2, gain_unit := some "db"
    accent_ratio := 1/2, accent_pct := 50 }

/-- Effective parameters of the C2 witness constrained run: tempo clamped
from 200 down to 180. -/
def w2eff : Params :=
  { tempo_bpm := 180, gain_db := 0, gain_raw := 1/2, gain_unit := some "db"
    accent_ratio := 1/2, accent_pct := 50 }

/-- Constrained-side metrics of the C2 witness pair: loudness 1.5 LUFS
above baseline, LRA within the 1e-6 noise floor of the baseline. -/
def w2metricsCons : Metrics :=
  { integrated_lufs := some (-37/2), lra_lu := some (10000001/2000000)
    onset_density_eps := some 2, peak_lufs := some (-1), audio_path := some "c.wav" }

/-- Baseline row of the C2 witness table. -/
def w2base : RunRecord :=
  mkRow "baseline" "t1" 7 "p1" none w1params w1params none none w1metricsBase false

/-- Constrained row of the C2 witness table (tempo clamp fired). -/
def w2cons : RunRecord :=
  mkRow "constrained_default" "t1" 7 "p2" none w2req w2eff none none
    w2metricsCons false

/-- Parameters of the C6 counterexample baseline run. -/
def c6params : Params :=
  { tempo_bpm := 110, gain_db := 0, gain_raw := 1/2, gain_unit := some "db"
    accent_ratio := 1/2, accent_pct := 50 }

/-- Metrics of the C6 counterexample baseline run. -/
def c6metrics : Metrics :=
  { integrated_lufs := some (-21), lra_lu := some 4, onset_density_eps := some 3
    peak_lufs := some (-2), audio_path := some "d.wav" }

/-- The single (baseline) row of the C6 counterexample table. -/
def c6base : RunRecord :=
  mkRow "baseline" "t6" 1 "p6" none c6params c6params none none c6metrics false

/-- Baseline row of the C5 witness table. -/
def w5base : RunRecord :=
  mkRow "baseline" "t5" 7 "p5a" none w1params w1params none none w1metricsBase false

/-- Constrained row of the C5 witness table, sharing the key of `w5base`. -/
def w5cons : RunRecord :=
  mkRow "constrained_default" "t5" 7 "p5b" none w1params w1params none none
    w1metricsBase false

/-- A second baseline row of the C5 witness table whose key has no
constrained partner, hence contributes no paired row. -/
def w5lone : RunRecord :=
  mkRow "baseline" "t5x" 8 "p5c" none w1params w1params none none w1metricsBase false

/-- The flag columns of a well-formed record: each OOB flag is missing or
a 0/1 indicator, each clamp flag is a 0/1 indicator.  Holds for every
record `summarize_runs` builds. -/
def flagWF (r : RunRecord) : Prop :=
  (r.tempo_req_oob = none ∨ r.tempo_req_oob = some 0 ∨ r.tempo_req_oob = some 1) ∧
  (r.tempo_eff_oob = none ∨ r.tempo_eff_oob = some 0 ∨ r.tempo_eff_oob = some 1) ∧
  (r.gain_req_oob = none ∨ r.gain_req_oob = some 0 ∨ r.gain_req_oob = some 1) ∧
  (r.gain_eff_oob = none ∨ r.gain_eff_oob = some 0 ∨ r.gain_eff_oob = some 1) ∧
  (r.accent_req_oob = none ∨ r.accent_req_oob = some 0 ∨ r.accent_req_oob = some 1) ∧
  (r.accent_eff_oob = none ∨ r.accent_eff_oob = some 0 ∨ r.accent_eff_oob = some 1) ∧
  (r.tempo_clamped = 0 ∨ r.tempo_clamped = 1) ∧
  (r.gain_clamped = 0 ∨ r.gain_clamped = 1) ∧
  (r.accent_clamped = 0 ∨ r.accent_clamped = 1)

/-- Parameters of the C9 witness run (no clamp). -/
def w9params : Params :=
  { tempo_bpm := 120, gain_db := 0, gain_raw := 1/2, gain_unit := some "db"
    accent_ratio := 1/2, accent_pct := 50 }

/-- Envelope of the C9 witness condition. -/
def w9env : Envelope :=
  { tempo_bpm := some { min := 60, max := 180 }, gain := some { min := 0, max := 1 }
    accent_ratio := some { min := 0, max := 1 }, configHash := some "h9" }

/-- Metrics of the C9 witness run (all absent). -/
def w9metrics : Metrics :=
  { integrated_lufs := none, lra_lu := none, onset_density_eps := none
    peak_lufs := none, audio_path := none }

/-- The single row of the C9 witness table. -/
def w9rec : RunRecord :=
  mkRow "constrained_default" "t9w" 1 "p9w" (some w9env) w9params w9params none none
    w9metrics false

/-- Requested parameters of the C9 counterexample runs. -/
def c9req : Params :=
  { tempo_bpm := 100, gain_db := 0, gain_raw := 1/2, gain_unit := none
    accent_ratio := 1/2, accent_pct := 50 }

/-- Effective parameters of the single clamped C9 counterexample run
(tempo shifted by one). -/
def c9eff : Params :=
  { tempo_bpm := 101, gain_db := 0, gain_raw := 1/2, gain_unit := none
    accent_ratio := 1/2, accent_pct := 50 }

/-- Envelope of the C9 counterexample condition (no bounds declared). -/
def c9env : Envelope :=
  { tempo_bpm := none, gain := none, accent_ratio := none, configHash := none }

/-- Metrics of the C9 counterexample runs (all absent). -/
def c9metrics : Metrics :=
  { integrated_lufs := none, lra_lu := none, onset_density_eps := none
    peak_lufs := none, audio_path := none }

/-- A C9 counterexample run with zero tempo shift. -/
def c9recA : RunRecord :=
  mkRow "constrained_default" "t9c" 0 "p9c" none c9req c9req none none c9metrics false

/-- The single C9 counterexample run with tempo shift 1. -/
def c9recB : RunRecord :=
  mkRow "constrained_default" "t9c" 1 "p9c" none c9req c9eff none none c9metrics false

/-- The C9 counterexample condition group: twenty runs with zero tempo
shift and one with shift 1, so the shift mean is `1/21` while the
interpolated 95th percentile is `0`. -/
def c9df : List RunRecord :=
  [c9recA, c9recA, c9recA, c9recA, c9recA, c9recA, c9recA, c9recA, c9recA, c9recA,
   c9recA, c9recA, c9recA, c9recA, c9recA, c9recA, c9recA, c9recA, c9recA, c9recA,
   c9recB]

/-- Every paired row arises from one baseline-side and one
constrained-side row of the flat table that agree on the join key. -/
lemma mem_build_paired {df : List RunRecord} {condition : String} {row : PairedRow}
    (hrow : row ∈ build_paired_summary_for_condition df condition) :
    ∃ rb, rb ∈ df.filter (fun r => decide (r.condition = "baseline")) ∧
      ∃ rc, rc ∈ df.filter (fun r => decide (r.condition = condition)) ∧
        rc.trace_id = rb.trace_id ∧ rc.seed = rb.seed ∧ row = pairRow rb rc := by
  unfold build_paired_summary_for_condition at hrow
  simp only [List.mem_flatMap, List.mem_map, List.mem_filter,
    decide_eq_true_eq] at hrow
  obtain ⟨rb, hrb, rc, ⟨hrc, hkey⟩, hpair⟩ := hrow
  exact ⟨rb, by simp [List.mem_filter, hrb.1, hrb.2],
    rc, by simp [List.mem_filter, hrc.1, hrc.2], hkey.1, hkey.2, hpair.symm⟩

/-- C1: for every row produced by `build_paired_summary_for_condition`, if
none of the constrained-side clamp flags is set then all three acoustic
deltas are exactly `0.0`, regardless of the metric values. -/
theorem C1_no_clamp_zero_deltas (df : List RunRecord) (condition : String)
    (row : PairedRow) (hrow : row ∈ build_paired_summary_for_condition df condition)
    (ht : row.tempo_clamped ≠ 1) (hg : row.gain_clamped ≠ 1)
    (ha : row.accent_clamped ≠ 1) :
    row.delta_integrated_lufs = some 0 ∧ row.delta_lra_lu = some 0 ∧
      row.delta_onset_density_eps = some 0 := by
  obtain ⟨rb, -, rc, -, -, -, hpair⟩ := mem_build_paired hrow
  subst hpair
  simp only [pairRow] at ht hg ha ⊢
  have hno : ¬(rc.tempo_clamped = 1 ∨ rc.gain_clamped = 1 ∨ rc.accent_clamped = 1) := by
    push_neg
    exact ⟨ht, hg, ha⟩
  simp [hno]

theorem C1_no_clamp_zero_deltas_witness :
    (pairRow w1base w1cons).delta_integrated_lufs = some 0 ∧
      (pairRow w1base w1cons).delta_lra_lu = some 0 ∧
      (pairRow w1base w1cons).delta_onset_density_eps = some 0 :=
  C1_no_clamp_zero_deltas [w1base, w1cons] "constrained_default"
    (pairRow w1base w1cons)
    (by simp [build_paired_summary_for_condition, w1base, w1cons, mkRow])
    (by simp [pairRow, w1cons, mkRow])
    (by simp [pairRow, w1cons, mkRow])
    (by simp [pairRow, w1cons, mkRow])

/-- C2: for every paired row with at least one constrained-side clamp flag
set, each acoustic delta is `constrained − baseline`, snapped to exactly
`0.0` when its absolute value is below `1e-6`. -/
theorem C2_clamped_delta_snap (df : List RunRecord) (condition : String)
    (row : PairedRow) (hrow : row ∈ build_paired_summary_for_condition df condition)
    (hc : row.tempo_clamped = 1 ∨ row.gain_clamped = 1 ∨ row.accent_clamped = 1) :
    (∀ cv bv, row.constrained_integrated_lufs = some cv →
      row.baseline_integrated_lufs = some bv →
      row.delta_integrated_lufs = some (if |cv - bv| < 1/1000000 then 0 else cv - bv)) ∧
    (∀ cv bv, row.constrained_lra_lu = some cv → row.baseline_lra_lu = some bv →
      row.delta_lra_lu = some (if |cv - bv| < 1/1000000 then 0 else cv - bv)) ∧
    (∀ cv bv, row.constrained_onset_density_eps = some cv →
      row.baseline_onset_density_eps = some bv →
      row.delta_onset_density_eps = some (if |cv - bv| < 1/1000000 then 0 else cv - bv)) := by
  obtain ⟨rb, -, rc, -, -, -, hpair⟩ := mem_build_paired hrow
  subst hpair
  simp only [pairRow] at hc ⊢
  rw [if_pos hc]
  refine ⟨?_, ?_, ?_⟩ <;>
    · intro cv bv hcv hbv
      simp only [hcv, hbv, subOpt, snapOpt]
      split_ifs <;> rfl

/-- Any row of a successful `summarize_runs` table was produced by
`buildRow` on one of the discovered runs. -/
lemma mem_summarize_runs_all (emap : List (String × Envelope)) (runs : List RunInput) :
    ∀ df r, summarize_runs emap runs = .ok df → r ∈ df →
      ∃ run ∈ runs, buildRow emap run = .ok (some r) := by
  induction runs with
  | nil =>
    intro df r h hr
    simp only [summarize_runs] at h
    injection h with h'
    subst h'
    exact absurd hr (List.not_mem_nil r)
  | cons run rest ih =>
    intro df r h hr
    simp only [summarize_runs] at h
    cases hb : buildRow emap run with
    | error e => rw [hb] at h; cases h
    | ok o =>
      rw [hb] at h
      cases o with
      | none =>
        obtain ⟨run', hrun', hbr⟩ := ih df r h hr
        exact ⟨run', List.mem_cons_of_mem _ hrun', hbr⟩
      | some r' =>
        cases hrest : summarize_runs emap rest with
        | error e => rw [hrest] at h; cases h
        | ok rows =>
          rw [hrest] at h
          injection h with h'
          subst h'
          rcases List.mem_cons.mp hr with rfl | hmem
          · exact ⟨run, List.mem_cons_self _ _, hb⟩
          · obtain ⟨run', hrun', hbr⟩ := ih rows r hrest hmem
            exact ⟨run', List.mem_cons_of_mem _ hrun', hbr⟩

/-- Convenience form of `mem_summarize_runs_all`. -/
lemma mem_summarize_runs {emap : List (String × Envelope)} {runs : List RunInput}
    {df : List RunRecord} {r : RunRecord}
    (h : summarize_runs emap runs = .ok df) (hr : r ∈ df) :
    ∃ run ∈ runs, buildRow emap run = .ok (some r) :=
  mem_summarize_runs_all emap runs df r h hr

/-- Every row `buildRow` emits is a `mkRow` over the run's identity, the
catalog lookup for its condition, and some resolved parameter payloads. -/
lemma buildRow_eq_mkRow {emap : List (String × Envelope)} {run : RunInput}
    {r : RunRecord} (h : buildRow emap run = .ok (some r)) :
    ∃ req eff pl ch m sp,
      r = mkRow run.condition run.trace_id run.seed run.run_path
        (List.lookup run.condition emap) req eff pl ch m sp := by
  cases hmet : run.l1metrics with
  | none => simp [buildRow, hmet] at h
  | some m =>
    cases hrw : run.reward_spec with
    | none => simp [buildRow, hmet, hrw] at h
    | some w =>
      cases hs : run.sessionReport with
      | none =>
        simp only [buildRow, hmet, hrw, hs, Except.ok.injEq, Option.some.injEq] at h
        exact ⟨_, _, _, _, _, _, h.symm⟩
      | some s =>
        cases heff : sessionEffective s with
        | none => simp [buildRow, hmet, hrw, hs, heff] at h
        | some eff =>
          simp only [buildRow, hmet, hrw, hs, heff, Except.ok.injEq,
            Option.some.injEq] at h
          exact ⟨_, _, _, _, _, _, h.symm⟩

/-- C3: for every `RunRecord` built by `summarize_runs` and each parameter,
the clamp flag is set iff requested differs from effective (exact
comparison), and the delta is `effective − requested`. -/
theorem C3_clamp_iff_strict_neq (emap : List (String × Envelope))
    (runs : List RunInput) (df : List RunRecord) (r : RunRecord)
    (h : summarize_runs emap runs = .ok df) (hr : r ∈ df) :
    ((r.tempo_clamped = 1 ↔ r.tempo_req ≠ r.tempo_eff) ∧
      (r.tempo_clamped = 0 ↔ r.tempo_req = r.tempo_eff) ∧
      r.tempo_delta = r.tempo_eff - r.tempo_req) ∧
    ((r.gain_clamped = 1 ↔ r.gain_req ≠ r.gain_eff) ∧
      (r.gain_clamped = 0 ↔ r.gain_req = r.gain_eff) ∧
      r.gain_delta = r.gain_eff - r.gain_req) ∧
    ((r.accent_clamped = 1 ↔ r.accent_req ≠ r.accent_eff) ∧
      (r.accent_clamped = 0 ↔ r.accent_req = r.accent_eff) ∧
      r.accent_delta = r.accent_eff - r.accent_req) := by
  obtain ⟨run, -, hbr⟩ := mem_summarize_runs h hr
  obtain ⟨req, eff, pl, ch, m, sp, rfl⟩ := buildRow_eq_mkRow hbr
  refine ⟨⟨?_, ?_, ?_⟩, ⟨?_, ?_, ?_⟩, ⟨?_, ?_, ?_⟩⟩ <;>
    simp only [mkRow] <;>
    first
      | rfl
      | (split_ifs with hx <;> norm_num [hx])

theorem C3_clamp_iff_strict_neq_witness :
    ((w3rec.tempo_clamped = 1 ↔ w3rec.tempo_req ≠ w3rec.tempo_eff) ∧
      (w3rec.tempo_clamped = 0 ↔ w3rec.tempo_req = w3rec.tempo_eff) ∧
      w3rec.tempo_delta = w3rec.tempo_eff - w3rec.tempo_req) ∧
    ((w3rec.gain_clamped = 1 ↔ w3rec.gain_req ≠ w3rec.gain_eff) ∧
      (w3rec.gain_clamped = 0 ↔ w3rec.gain_req = w3rec.gain_eff) ∧
      w3rec.gain_delta = w3rec.gain_eff - w3rec.gain_req) ∧
    ((w3rec.accent_clamped = 1 ↔ w3rec.accent_req ≠ w3rec.accent_eff) ∧
      (w3rec.accent_clamped = 0 ↔ w3rec.accent_req = w3rec.accent_eff) ∧
      w3rec.accent_delta = w3rec.accent_eff - w3rec.accent_req) :=
  C3_clamp_iff_strict_neq [] [w3run] [w3rec] w3rec rfl (by simp)

/-- C7: when the session report is absent, effective parameters are the
requested parameters, so effective equals requested, all clamp flags are
`0` and all parameter deltas are `0`. -/
theorem C7_no_session_fallback (emap : List (String × Envelope)) (run : RunInput)
    (m : Metrics) (w : RewardSpec) (r : RunRecord)
    (hm : run.l1metrics = some m) (hw : run.reward_spec = some w)
    (hs : run.sessionReport = none)
    (h : buildRow emap run = .ok (some r)) :
    r.tempo_eff = r.tempo_req ∧ r.gain_eff = r.gain_req ∧
      r.accent_eff = r.accent_req ∧
    r.tempo_clamped = 0 ∧ r.gain_clamped = 0 ∧ r.accent_clamped = 0 ∧
    r.tempo_delta = 0 ∧ r.gain_delta = 0 ∧ r.accent_delta = 0 := by
  unfold buildRow at h
  rw [hm, hw, hs] at h
  injection h with h'
  injection h' with h''
  subst h''
  simp [mkRow]

theorem C7_no_session_fallback_witness :
    w7rec.tempo_eff = w7rec.tempo_req ∧ w7rec.gain_eff = w7rec.gain_req ∧
      w7rec.accent_eff = w7rec.accent_req ∧
    w7rec.tempo_clamped = 0 ∧ w7rec.gain_clamped = 0 ∧ w7rec.accent_clamped = 0 ∧
    w7rec.tempo_delta = 0 ∧ w7rec.gain_delta = 0 ∧ w7rec.accent_delta = 0 :=
  C7_no_session_fallback [] w7run w1metricsBase w3reward w7rec rfl rfl rfl rfl

/-- C8: a run missing the metrics artifact or the reward-spec artifact is
silently dropped (`ok none`, no error); a run with both present yields a
row whenever its (optional) session report resolves effective
parameters. -/
theorem C8_required_artifacts (emap : List (String × Envelope)) (run : RunInput) :
    (run.l1metrics = none ∨ run.reward_spec = none → buildRow emap run = .ok none) ∧
    (∀ m w, run.l1metrics = some m → run.reward_spec = some w →
      (run.sessionReport = none → ∃ r, buildRow emap run = .ok (some r)) ∧
      (∀ s eff, run.sessionReport = some s → sessionEffective s = some eff →
        ∃ r, buildRow emap run = .ok (some r))) := by
  constructor
  · intro hmw
    cases hmet : run.l1metrics with
    | none => cases hrw : run.reward_spec <;> simp [buildRow, hmet, hrw]
    | some m =>
      cases hrw : run.reward_spec with
      | none => simp [buildRow, hmet, hrw]
      | some w =>
        rcases hmw with hm | hw
        · rw [hmet] at hm; cases hm
        · rw [hrw] at hw; cases hw
  · intro m w hm hw
    constructor
    · intro hs
      refine ⟨mkRow run.condition run.trace_id run.seed run.run_path
        (List.lookup run.condition emap) w.params_requested w.params_requested
        w.pattern_label none m false, ?_⟩
      simp [buildRow, hm, hw, hs]
    · intro s eff hs heff
      refine ⟨mkRow run.condition run.trace_id run.seed run.run_path
        (List.lookup run.condition emap) w.params_requested eff
        s.patternLabel s.configHash m true, ?_⟩
      simp [buildRow, hm, hw, hs, heff]

theorem C8_required_artifacts_witness :
    buildRow [] w8run = .ok none :=
  (C8_required_artifacts [] w8run).1 (Or.inl rfl)

/-- C4: with a registered envelope carrying bounds for a parameter, the
OOB flag of a record is `1` iff the tested value lies strictly below
`min` or strictly above `max` (requested and effective tested
independently); without a registered envelope every OOB flag is `none`
("unknown") and record construction still succeeds. -/
theorem C4_oob_flags (condition trace_id : String) (seed : ℤ) (run_path : String)
    (envOpt : Option Envelope) (req eff : Params) (pl ch : Option String)
    (m : Metrics) (sp : Bool) :
    (envOpt = none →
      (mkRow condition trace_id seed run_path envOpt req eff pl ch m sp).tempo_req_oob = none ∧
      (mkRow condition trace_id seed run_path envOpt req eff pl ch m sp).tempo_eff_oob = none ∧
      (mkRow condition trace_id seed run_path envOpt req eff pl ch m sp).gain_req_oob = none ∧
      (mkRow condition trace_id seed run_path envOpt req eff pl ch m sp).gain_eff_oob = none ∧
      (mkRow condition trace_id seed run_path envOpt req eff pl ch m sp).accent_req_oob = none ∧
      (mkRow condition trace_id seed run_path envOpt req eff pl ch m sp).accent_eff_oob = none) ∧
    (∀ env, envOpt = some env →
      (∀ b, env.tempo_bpm = some b →
        ((mkRow condition trace_id seed run_path envOpt req eff pl ch m sp).tempo_req_oob = some 1 ↔
          req.tempo_bpm < b.min ∨ req.tempo_bpm > b.max) ∧
        ((mkRow condition trace_id seed run_path envOpt req eff pl ch m sp).tempo_req_oob = some 0 ↔
          ¬(req.tempo_bpm < b.min ∨ req.tempo_bpm > b.max)) ∧
        ((mkRow condition trace_id seed run_path envOpt req eff pl ch m sp).tempo_eff_oob = some 1 ↔
          eff.tempo_bpm < b.min ∨ eff.tempo_bpm > b.max) ∧
        ((mkRow condition trace_id seed run_path envOpt req eff pl ch m sp).tempo_eff_oob = some 0 ↔
          ¬(eff.tempo_bpm < b.min ∨ eff.tempo_bpm > b.max))) ∧
      (∀ b, env.gain = some b →
        ((mkRow condition trace_id seed run_path envOpt req eff pl ch m sp).gain_req_oob = some 1 ↔
          req.gain_raw < b.min ∨ req.gain_raw > b.max) ∧
        ((mkRow condition trace_id seed run_path envOpt req eff pl ch m sp).gain_req_oob = some 0 ↔
          ¬(req.gain_raw < b.min ∨ req.gain_raw > b.max)) ∧
        ((mkRow condition trace_id seed run_path envOpt req eff pl ch m sp).gain_eff_oob = some 1 ↔
          eff.gain_raw < b.min ∨ eff.gain_raw > b.max) ∧
        ((mkRow condition trace_id seed run_path envOpt req eff pl ch m sp).gain_eff_oob = some 0 ↔
          ¬(eff.gain_raw < b.min ∨ eff.gain_raw > b.max))) ∧
      (∀ b, env.accent_ratio = some b →
        ((mkRow condition trace_id seed run_path envOpt req eff pl ch m sp).accent_req_oob = some 1 ↔
          req.accent_ratio < b.min ∨ req.accent_ratio > b.max) ∧
        ((mkRow condition trace_id seed run_path envOpt req eff pl ch m sp).accent_req_oob = some 0 ↔
          ¬(req.accent_ratio < b.min ∨ req.accent_ratio > b.max)) ∧
        ((mkRow condition trace_id seed run_path envOpt req eff pl ch m sp).accent_eff_oob = some 1 ↔
          eff.accent_ratio < b.min ∨ eff.accent_ratio > b.max) ∧
        ((mkRow condition trace_id seed run_path envOpt req eff pl ch m sp).accent_eff_oob = some 0 ↔
          ¬(eff.accent_ratio < b.min ∨ eff.accent_ratio > b.max)))) := by
  constructor
  · rintro rfl
    simp [mkRow]
  · rintro env rfl
    refine ⟨?_, ?_, ?_⟩ <;>
      · rintro b hb
        refine ⟨?_, ?_, ?_, ?_⟩ <;>
          · simp only [mkRow, hb, Option.map_some', Option.some.injEq, oob_flag]
            split_ifs with hx <;> norm_num [hx]

theorem C4_oob_flags_witness :
    (mkRow "constrained_default" "t4" 1 "p4" (some w4env) w4req w4eff none none
      w1metricsBase false).tempo_req_oob = some 1 ∧
    (mkRow "constrained_default" "t4" 1 "p4" (some w4env) w4req w4eff none none
      w1metricsBase false).tempo_eff_oob = some 0 := by
  have h := (C4_oob_flags "constrained_default" "t4" 1 "p4" (some w4env) w4req w4eff
    none none w1metricsBase false).2 w4env rfl
  obtain ⟨ht, -, -⟩ := h
  obtain ⟨h1, -, -, h0⟩ := ht { min := 60, max := 180 } rfl
  refine ⟨h1.mpr ?_, h0.mpr ?_⟩
  · right
    norm_num [w4req]
  · rw [w4eff]
    norm_num

/-- C10: within one record, the gain OOB flags test the raw gain value
(`gain_raw`) against the envelope's gain bounds, while the gain clamp
flag and gain delta are computed from the decibel value (`gain_db`); the
value tested against the bounds is not the value whose inequality defines
clamping. -/
theorem C10_gain_raw_vs_db (condition trace_id : String) (seed : ℤ)
    (run_path : String) (envOpt : Option Envelope) (req eff : Params)
    (pl ch : Option String) (m : Metrics) (sp : Bool) :
    (∀ env b, envOpt = some env → env.gain = some b →
      (mkRow condition trace_id seed run_path envOpt req eff pl ch m sp).gain_req_oob =
        some (oob_flag req.gain_raw b) ∧
      (mkRow condition trace_id seed run_path envOpt req eff pl ch m sp).gain_eff_oob =
        some (oob_flag eff.gain_raw b)) ∧
    (mkRow condition trace_id seed run_path envOpt req eff pl ch m sp).gain_clamped =
      (if req.gain_db = eff.gain_db then (0 : ℚ) else 1) ∧
    (mkRow condition trace_id seed run_path envOpt req eff pl ch m sp).gain_delta =
      eff.gain_db - req.gain_db ∧
    (∃ env' req' eff',
      (mkRow condition trace_id seed run_path (some env') req' eff' pl ch m sp).gain_clamped = 1 ∧
      (mkRow condition trace_id seed run_path (some env') req' eff' pl ch m sp).gain_req_oob = some 0 ∧
      (mkRow condition trace_id seed run_path (some env') req' eff' pl ch m sp).gain_eff_oob = some 0 ∧
      req'.gain_raw = eff'.gain_raw) := by
  refine ⟨?_, by simp [mkRow], by simp [mkRow], ?_⟩
  · rintro env b rfl hb
    simp [mkRow, hb]
  · refine ⟨divergeEnv, divergeReq, divergeEff, ?_, ?_, ?_, rfl⟩
    · norm_num [mkRow, divergeReq, divergeEff]
    · norm_num [mkRow, oob_flag, divergeEnv, divergeReq]
    · norm_num [mkRow, oob_flag, divergeEnv, divergeEff]

theorem C10_gain_raw_vs_db_witness :
    (mkRow "constrained_tight" "t10" 2 "p10" (some w4env) w10req w10req none none
      w1metricsBase false).gain_req_oob = some (oob_flag w10req.gain_raw { min := 0, max := 1 }) ∧
    (mkRow "constrained_tight" "t10" 2 "p10" (some w4env) w10req w10req none none
      w1metricsBase false).gain_eff_oob = some (oob_flag w10req.gain_raw { min := 0, max := 1 }) :=
  (C10_gain_raw_vs_db "constrained_tight" "t10" 2 "p10" (some w4env) w10req w10req
    none none w1metricsBase false).1 w4env { min := 0, max := 1 } rfl rfl

theorem C2_clamped_delta_snap_witness :
    (pairRow w2base w2cons).delta_integrated_lufs = some (3/2) ∧
      (pairRow w2base w2cons).delta_lra_lu = some 0 := by
  have h := C2_clamped_delta_snap [w2base, w2cons] "constrained_default"
    (pairRow w2base w2cons)
    (by simp [build_paired_summary_for_condition, w2base, w2cons, mkRow])
    (by simp [pairRow, w2cons, mkRow, w2req, w2eff])
  constructor
  · refine (h.1 (-37/2) (-20) (by simp [pairRow, w2cons, mkRow, w2metricsCons])
      (by simp [pairRow, w2base, mkRow, w1metricsBase])).trans ?_
    have hv : (-37/2 : ℚ) - -20 = 3/2 := by norm_num
    rw [hv, abs_of_nonneg (by norm_num : (0:ℚ) ≤ 3/2), if_neg (by norm_num)]
  · refine (h.2.1 (10000001/2000000) 5 (by simp [pairRow, w2cons, mkRow, w2metricsCons])
      (by simp [pairRow, w2base, mkRow, w1metricsBase])).trans ?_
    have hv : (10000001/2000000 : ℚ) - 5 = 1/2000000 := by norm_num
    rw [hv, abs_of_nonneg (by norm_num : (0:ℚ) ≤ 1/2000000), if_pos (by norm_num)]

/-- A flat map whose function returns `[]` everywhere is `[]`. -/
lemma flatMap_eq_nil {α β : Type} (l : List α) (f : α → List β)
    (hf : ∀ x ∈ l, f x = []) : l.flatMap f = [] := by
  induction l with
  | nil => rfl
  | cons a rest ih =>
    rw [List.flatMap_cons, hf a (List.mem_cons_self a rest), List.nil_append]
    exact ih fun x hx => hf x (List.mem_cons_of_mem a hx)

/-- C6 counterexample: on a table with one baseline row and zero rows for
the target condition, `build_paired_summary_for_condition` raises no
error — it returns (and the source persists) an empty paired table,
contradicting the claimed empty-result failure. -/
theorem C6_counterexample_returns_empty :
    build_paired_summary_for_condition [c6base] "constrained_default" = [] := by
  simp [build_paired_summary_for_condition, c6base, mkRow]

/-- C6 amended: when the baseline subset or the target-condition subset of
the flat table is empty, the paired-delta computation raises no error and
returns the empty paired table. -/
theorem C6_empty_side_yields_empty_table (df : List RunRecord) (condition : String)
    (h : df.filter (fun r => decide (r.condition = "baseline")) = [] ∨
         df.filter (fun r => decide (r.condition = condition)) = []) :
    build_paired_summary_for_condition df condition = [] := by
  rcases h with h | h
  · show (df.filter fun r => decide (r.condition = "baseline")).flatMap _ = []
    rw [h]
    rfl
  · refine flatMap_eq_nil _ _ fun rb _ => ?_
    show ((df.filter fun r => decide (r.condition = condition)).filter _).map _ = []
    rw [h]
    rfl

theorem C6_empty_side_yields_empty_table_witness :
    build_paired_summary_for_condition [] "constrained_tight" = [] :=
  C6_empty_side_yields_empty_table [] "constrained_tight" (Or.inl rfl)

/-- A constrained-side subset contains no row matching a join key that is
absent from its key list. -/
lemma filter_key_nil {cons : List RunRecord} {k : String × ℤ}
    (h : k ∉ cons.map runKey) :
    cons.filter (fun rc => decide (rc.trace_id = k.1 ∧ rc.seed = k.2)) = [] := by
  induction cons with
  | nil => rfl
  | cons c rest ih =>
    simp only [List.map_cons, List.mem_cons] at h
    push_neg at h
    have hc : ¬(c.trace_id = k.1 ∧ c.seed = k.2) := by
      rintro ⟨h1, h2⟩
      exact h.1 (by simp [runKey, Prod.ext_iff, h1, h2])
    rw [List.filter_cons, if_neg (by simpa using hc)]
    exact ih h.2

/-- Under `Nodup` join keys, the number of constrained-side rows matching
a key is `1` when the key is present and `0` otherwise. -/
lemma count_key {cons : List RunRecord} (hc : (cons.map runKey).Nodup)
    (k : String × ℤ) :
    (cons.filter (fun rc => decide (rc.trace_id = k.1 ∧ rc.seed = k.2))).length =
      if k ∈ cons.map runKey then 1 else 0 := by
  induction cons with
  | nil => simp
  | cons c rest ih =>
    simp only [List.map_cons, List.nodup_cons] at hc
    by_cases hck : c.trace_id = k.1 ∧ c.seed = k.2
    · have hkey : runKey c = k := by
        simp [runKey, Prod.ext_iff, hck.1, hck.2]
      have hrest : k ∉ List.map runKey rest := by
        rw [← hkey]
        exact hc.1
      have hfil : rest.filter (fun rc => decide (rc.trace_id = k.1 ∧ rc.seed = k.2)) = [] :=
        filter_key_nil hrest
      rw [List.filter_cons, if_pos (by simpa using hck), hfil]
      have hmem : k ∈ List.map runKey (c :: rest) := by
        rw [List.map_cons]
        exact List.mem_cons.mpr (Or.inl hkey.symm)
      rw [if_pos hmem]
      rfl
    · have hne : k ≠ runKey c := by
        intro he
        subst he
        exact hck ⟨rfl, rfl⟩
      rw [List.filter_cons, if_neg (by simpa using hck), ih hc.2]
      by_cases hmr : k ∈ List.map runKey rest
      · rw [if_pos hmr, if_pos (by rw [List.map_cons]; exact List.mem_cons.mpr (Or.inr hmr))]
      · rw [if_neg hmr, if_neg ?hneg]
        case hneg =>
          rw [List.map_cons, List.mem_cons]
          push_neg
          exact ⟨hne, hmr⟩

/-- Length of the inner join: one merged row per baseline row whose key
occurs among the (duplicate-free) constrained keys. -/
lemma flatMap_pair_length (cons : List RunRecord)
    (hc : (cons.map runKey).Nodup) :
    ∀ base : List RunRecord,
      (base.flatMap fun rb =>
        (cons.filter fun rc => decide (rc.trace_id = rb.trace_id ∧ rc.seed = rb.seed)).map
          fun rc => pairRow rb rc).length =
      ((base.map runKey).filter fun k => decide (k ∈ cons.map runKey)).length := by
  intro base
  induction base with
  | nil => rfl
  | cons rb rest ih =>
    rw [List.flatMap_cons, List.length_append, List.length_map]
    have hcount := count_key hc (runKey rb)
    simp only [runKey] at hcount
    rw [hcount, List.map_cons, List.filter_cons]
    by_cases hm : (rb.trace_id, rb.seed) ∈ List.map runKey cons
    · rw [if_pos hm,
        if_pos (decide_eq_true (show runKey rb ∈ List.map runKey cons from hm))]
      simp only [List.length_cons, ih]
      omega
    · rw [if_neg hm, if_neg (by simpa using hm), ih]
      omega

/-- C5: the paired-delta computation is a strict inner join on
`(trace_id, seed)` — with duplicate-free keys on each side, the number of
paired rows equals the number of distinct keys present in both subsets;
every paired row carries a key present in both subsets; and every key
present in both subsets yields a paired row. -/
theorem C5_strict_inner_join (df : List RunRecord) (condition : String)
    (hb : ((df.filter fun r => decide (r.condition = "baseline")).map runKey).Nodup)
    (hc : ((df.filter fun r => decide (r.condition = condition)).map runKey).Nodup) :
    (build_paired_summary_for_condition df condition).length =
      (((df.filter fun r => decide (r.condition = "baseline")).map runKey).filter
        fun k => decide (k ∈ (df.filter fun r => decide (r.condition = condition)).map runKey)).length ∧
    (∀ row ∈ build_paired_summary_for_condition df condition,
      (row.trace_id, row.seed) ∈ (df.filter fun r => decide (r.condition = "baseline")).map runKey ∧
      (row.trace_id, row.seed) ∈ (df.filter fun r => decide (r.condition = condition)).map runKey) ∧
    (∀ k, k ∈ (df.filter fun r => decide (r.condition = "baseline")).map runKey →
      k ∈ (df.filter fun r => decide (r.condition = condition)).map runKey →
      ∃ row ∈ build_paired_summary_for_condition df condition,
        (row.trace_id, row.seed) = k) := by
  refine ⟨flatMap_pair_length _ hc _, ?_, ?_⟩
  · intro row hrow
    obtain ⟨rb, hrb, rc, hrc, ht, hsd, rfl⟩ := mem_build_paired hrow
    constructor
    · exact List.mem_map.mpr ⟨rb, hrb, by simp [runKey, pairRow]⟩
    · exact List.mem_map.mpr ⟨rc, hrc, by simp [runKey, pairRow, ht, hsd]⟩
  · intro k hkb hkc
    obtain ⟨rb, hrb, hkb'⟩ := List.mem_map.mp hkb
    obtain ⟨rc, hrc, hkc'⟩ := List.mem_map.mp hkc
    have h1 : (rc.trace_id, rc.seed) = (rb.trace_id, rb.seed) := by
      simp only [runKey] at hkb' hkc'
      rw [hkc', ← hkb']
    have hmatch : rc.trace_id = rb.trace_id ∧ rc.seed = rb.seed :=
      ⟨congrArg Prod.fst h1, congrArg Prod.snd h1⟩
    refine ⟨pairRow rb rc, ?_, ?_⟩
    · refine List.mem_flatMap.mpr ⟨rb, hrb, List.mem_map.mpr ⟨rc, ?_, rfl⟩⟩
      exact List.mem_filter.mpr ⟨hrc, by simp [hmatch.1, hmatch.2]⟩
    · simpa only [pairRow, runKey] using hkb'

theorem C5_strict_inner_join_witness :
    (build_paired_summary_for_condition [w5base, w5lone, w5cons]
      "constrained_default").length = 1 := by
  have h := (C5_strict_inner_join [w5base, w5lone, w5cons] "constrained_default"
    (by simp [w5base, w5lone, w5cons, mkRow, runKey])
    (by simp [w5base, w5lone, w5cons, mkRow, runKey])).1
  rw [h]
  rfl

/-- An OOB column value is missing or a 0/1 indicator. -/
lemma oobWF (v : ℚ) (ob : Option Bounds) :
    Option.map (oob_flag v) ob = none ∨ Option.map (oob_flag v) ob = some 0 ∨
      Option.map (oob_flag v) ob = some 1 := by
  cases ob with
  | none => exact Or.inl rfl
  | some b =>
    right
    simp only [Option.map_some', Option.some.injEq, oob_flag]
    split_ifs <;> simp

/-- A clamp column value is a 0/1 indicator. -/
lemma clampWF (a b : ℚ) :
    (if a = b then (0:ℚ) else 1) = 0 ∨ (if a = b then (0:ℚ) else 1) = 1 := by
  split_ifs <;> simp

/-- Every record built by `mkRow` has well-formed flag columns. -/
lemma mkRow_flagWF (condition trace_id : String) (seed : ℤ) (run_path : String)
    (envelope : Option Envelope) (requested effective : Params)
    (pattern_label config_hash : Option String) (metrics : Metrics)
    (session_present : Bool) :
    flagWF (mkRow condition trace_id seed run_path envelope requested effective
      pattern_label config_hash metrics session_present) := by
  unfold flagWF mkRow
  exact ⟨oobWF _ _, oobWF _ _, oobWF _ _, oobWF _ _, oobWF _ _, oobWF _ _,
    clampWF _ _, clampWF _ _, clampWF _ _⟩

/-- A missing-or-indicator option reads back as a 0/1 value under
`fillna(0)`. -/
lemma optUnit {o : Option ℚ} (h : o = none ∨ o = some 0 ∨ o = some 1) :
    o.getD 0 = 0 ∨ o.getD 0 = 1 := by
  rcases h with h | h | h <;> simp [h]

/-- A plain 0/1 column wrapped in `some` reads back unchanged. -/
lemma someUnit {x : ℚ} (h : x = 0 ∨ x = 1) :
    (some x).getD 0 = 0 ∨ (some x).getD 0 = 1 := by
  simpa using h

/-- The rate `pct` of a column whose filled values are 0/1 indicators lies in
`[0, 1]`. -/
lemma pct_unit (subset : List RunRecord) (col : RunRecord → Option ℚ)
    (h : ∀ r ∈ subset, (col r).getD 0 = 0 ∨ (col r).getD 0 = 1) :
    0 ≤ pct subset col ∧ pct subset col ≤ 1 := by
  unfold pct
  by_cases hlen : subset.length = 0
  · simp [hlen]
  · rw [if_neg hlen]
    have h0 : ∀ x ∈ subset.map (fun r => (col r).getD 0), 0 ≤ x := by
      intro x hx
      obtain ⟨r, hr, rfl⟩ := List.mem_map.mp hx
      rcases h r hr with h' | h' <;> rw [h'] <;> norm_num
    have h1 : ∀ x ∈ subset.map (fun r => (col r).getD 0), x ≤ 1 := by
      intro x hx
      obtain ⟨r, hr, rfl⟩ := List.mem_map.mp hx
      rcases h r hr with h' | h' <;> rw [h'] <;> norm_num
    have hpos : (0:ℚ) < (subset.length : ℚ) := by
      exact_mod_cast Nat.pos_of_ne_zero hlen
    constructor
    · exact div_nonneg (List.sum_nonneg h0) (le_of_lt hpos)
    · rw [div_le_one hpos]
      have hcard := List.sum_le_card_nsmul _ 1 h1
      rwa [List.length_map, nsmul_eq_mul, mul_one] at hcard

/-- The ascending sort is a permutation of its input. -/
lemma sortAsc_perm (l : List ℚ) : (sortAsc l).Perm l :=
  List.perm_insertionSort _ l

/-- The ascending sort is sorted. -/
lemma sortAsc_sorted (l : List ℚ) : (sortAsc l).Sorted (· ≤ ·) :=
  List.sorted_insertionSort _ l

/-- The interpolated value at a position whose integer part is in range
and whose fractional part lies in `[0, 1]` is bracketed by two list
elements. -/
lemma interpAt_bounds {s : List ℚ} {h : ℚ} (hsorted : s.Sorted (· ≤ ·))
    (hlo : (⌊h⌋).toNat < s.length) (hfrac0 : 0 ≤ h - (⌊h⌋ : ℚ))
    (hfrac1 : h - (⌊h⌋ : ℚ) ≤ 1) :
    ∃ a ∈ s, ∃ b ∈ s, a ≤ interpAt s h ∧ interpAt s h ≤ b := by
  unfold interpAt
  by_cases hhi : (⌊h⌋).toNat + 1 < s.length
  · have hvlo : s.getD (⌊h⌋).toNat 0 = s[(⌊h⌋).toNat] := List.getD_eq_getElem s 0 hlo
    have hvhi : s.getD ((⌊h⌋).toNat + 1) (s.getD (⌊h⌋).toNat 0) = s[(⌊h⌋).toNat + 1] :=
      List.getD_eq_getElem s _ hhi
    have hle : s[(⌊h⌋).toNat] ≤ s[(⌊h⌋).toNat + 1] :=
      List.pairwise_iff_getElem.mp hsorted _ _ hlo hhi (Nat.lt_succ_self _)
    refine ⟨s[(⌊h⌋).toNat], List.getElem_mem hlo,
      s[(⌊h⌋).toNat + 1], List.getElem_mem hhi, ?_, ?_⟩
    · rw [hvhi, hvlo]
      have hnn : 0 ≤ (h - (⌊h⌋:ℚ)) * (s[(⌊h⌋).toNat + 1] - s[(⌊h⌋).toNat]) :=
        mul_nonneg hfrac0 (sub_nonneg.mpr hle)
      linarith
    · rw [hvhi, hvlo]
      have hub : (h - (⌊h⌋:ℚ)) * (s[(⌊h⌋).toNat + 1] - s[(⌊h⌋).toNat]) ≤
          s[(⌊h⌋).toNat + 1] - s[(⌊h⌋).toNat] :=
        mul_le_of_le_one_left (sub_nonneg.mpr hle) hfrac1
      linarith
  · have hvlo : s.getD (⌊h⌋).toNat 0 = s[(⌊h⌋).toNat] := List.getD_eq_getElem s 0 hlo
    have hvhi : s.getD ((⌊h⌋).toNat + 1) (s.getD (⌊h⌋).toNat 0) = s.getD (⌊h⌋).toNat 0 :=
      List.getD_eq_default s _ (Nat.le_of_not_lt hhi)
    refine ⟨s[(⌊h⌋).toNat], List.getElem_mem hlo,
      s[(⌊h⌋).toNat], List.getElem_mem hlo, ?_, ?_⟩
    · rw [hvhi, hvlo, sub_self, mul_zero, add_zero]
    · rw [hvhi, hvlo, sub_self, mul_zero, add_zero]

/-- The 95th percentile of a non-empty value list is bracketed by any
lower and upper bound of the values. -/
lemma quantile95_mem_bounds {vals : List ℚ} (hne : vals ≠ []) (m M : ℚ)
    (hm : ∀ x ∈ vals, m ≤ x) (hM : ∀ x ∈ vals, x ≤ M) :
    m ≤ quantile95 vals ∧ quantile95 vals ≤ M := by
  have hperm := sortAsc_perm vals
  have hsorted := sortAsc_sorted vals
  have hlen : (sortAsc vals).length = vals.length := hperm.length_eq
  have hn : 0 < vals.length := List.length_pos.mpr hne
  have hn1 : (1:ℚ) ≤ ((sortAsc vals).length : ℚ) := by
    rw [hlen]
    exact_mod_cast hn
  have h0 : (0:ℚ) ≤ (19/20) * (((sortAsc vals).length : ℚ) - 1) :=
    mul_nonneg (by norm_num) (by linarith)
  have h1 : (19/20) * (((sortAsc vals).length : ℚ) - 1) ≤
      ((sortAsc vals).length : ℚ) - 1 := by
    have hup := mul_le_mul_of_nonneg_right
      (by norm_num : (19/20:ℚ) ≤ 1) (by linarith : (0:ℚ) ≤ ((sortAsc vals).length : ℚ) - 1)
    linarith
  set hq : ℚ := (19/20) * (((sortAsc vals).length : ℚ) - 1) with hhq
  have hfl0 : 0 ≤ ⌊hq⌋ := Int.floor_nonneg.mpr h0
  have hfl1 : ⌊hq⌋ ≤ ((sortAsc vals).length : ℤ) - 1 := by
    have h2 : (⌊hq⌋ : ℚ) ≤ ((sortAsc vals).length : ℚ) - 1 :=
      le_trans (Int.floor_le hq) h1
    exact_mod_cast h2
  have hlo : (⌊hq⌋).toNat < (sortAsc vals).length := by
    rw [hlen] at hfl1 ⊢
    omega
  have hfrac0 : 0 ≤ hq - (⌊hq⌋:ℚ) := sub_nonneg.mpr (Int.floor_le hq)
  have hfrac1 : hq - (⌊hq⌋:ℚ) ≤ 1 := by
    have hlt := Int.lt_floor_add_one hq
    linarith
  obtain ⟨a, ha, b, hb, har, hrb⟩ := interpAt_bounds hsorted hlo hfrac0 hfrac1
  have hqe : quantile95 vals = interpAt (sortAsc vals) hq := rfl
  rw [hqe]
  exact ⟨le_trans (hm a (hperm.mem_iff.mp ha)) har,
    le_trans hrb (hM b (hperm.mem_iff.mp hb))⟩

/-- The fold seed is a lower bound of a running maximum. -/
lemma le_foldl_max : ∀ (l : List ℚ) (v : ℚ), v ≤ l.foldl max v := by
  intro l
  induction l with
  | nil => intro v; exact le_refl v
  | cons x xs ih =>
    intro v
    simp only [List.foldl_cons]
    exact le_trans (le_max_left v x) (ih (max v x))

/-- Every element of a list is bounded by the running maximum. -/
lemma mem_le_foldl_max : ∀ (l : List ℚ) (v : ℚ), ∀ x ∈ l, x ≤ l.foldl max v := by
  intro l
  induction l with
  | nil => intro v x hx; cases hx
  | cons y ys ih =>
    intro v x hx
    simp only [List.foldl_cons]
    rcases List.mem_cons.mp hx with rfl | hx'
    · exact le_trans (le_max_right v x) (le_foldl_max ys (max v x))
    · exact ih (max v y) x hx'

/-- Statistics of a non-empty list of non-negative values: mean, p95 and
max are non-negative, and the p95 is bounded by the max. -/
lemma stats_of_absList (v : ℚ) (rest : List ℚ)
    (hnn : ∀ x ∈ v :: rest, 0 ≤ x) :
    0 ≤ (v :: rest).sum / (((v :: rest).length : ℕ) : ℚ) ∧
    0 ≤ quantile95 (v :: rest) ∧
    0 ≤ rest.foldl max v ∧
    quantile95 (v :: rest) ≤ rest.foldl max v := by
  have hmax : ∀ x ∈ v :: rest, x ≤ rest.foldl max v := by
    intro x hx
    rcases List.mem_cons.mp hx with rfl | hx'
    · exact le_foldl_max rest x
    · exact mem_le_foldl_max rest v x hx'
  have hq := quantile95_mem_bounds (List.cons_ne_nil v rest) 0 (rest.foldl max v) hnn hmax
  refine ⟨?_, hq.1, ?_, hq.2⟩
  · exact div_nonneg (List.sum_nonneg hnn) (by positivity)
  · exact le_trans (hnn v (List.mem_cons_self v rest)) (le_foldl_max rest v)

/-- The `shift_stats` of a non-empty subset: non-negative statistics with
p95 bounded by max. -/
lemma shift_stats_bounds (subset : List RunRecord) (col : RunRecord → ℚ)
    (hne : subset ≠ []) :
    0 ≤ (shift_stats subset col).mean ∧ 0 ≤ (shift_stats subset col).p95 ∧
      0 ≤ (shift_stats subset col).max ∧
      (shift_stats subset col).p95 ≤ (shift_stats subset col).max := by
  cases subset with
  | nil => exact absurd rfl hne
  | cons r rs =>
    have habs : ∀ x ∈ |col r| :: rs.map (fun a => |col a|), 0 ≤ x := by
      intro x hx
      rcases List.mem_cons.mp hx with rfl | hx'
      · exact abs_nonneg _
      · obtain ⟨y, -, rfl⟩ := List.mem_map.mp hx'
        exact abs_nonneg _
    have hst := stats_of_absList (|col r|) (rs.map fun a => |col a|) habs
    simpa only [shift_stats, List.map_cons, List.length_cons, List.length_map] using hst

/-- Every summary emitted by `summarize_l2_enforcement` is the `l2_row` of
some catalog condition whose subset of the flat table is non-empty. -/
lemma mem_summarize_l2 {envmap : List (String × Envelope)} {df : List RunRecord}
    {s : EnforcementSummary} (hs : s ∈ summarize_l2_enforcement envmap df) :
    ∃ condition envelope, s = l2_row condition envelope df ∧
      df.filter (fun r => decide (r.condition = condition)) ≠ [] := by
  induction envmap with
  | nil => simp [summarize_l2_enforcement] at hs
  | cons p rest ih =>
    rcases p with ⟨condition, envelope⟩
    simp only [summarize_l2_enforcement] at hs
    split_ifs at hs with h1 h2
    · exact ih hs
    · exact ih hs
    · rcases List.mem_cons.mp hs with rfl | hs'
      · exact ⟨condition, envelope, rfl,
          fun hnil => h2 (List.isEmpty_iff.mpr hnil)⟩
      · exact ih hs'

/-- C9 amended: every enforcement-summary row produced for a non-empty
condition group has all OOB and clamp rates in `[0, 1]` and non-negative
shift statistics with `p95 ≤ max` per parameter (the claimed
`mean ≤ p95` does not hold in general). -/
theorem C9_rates_and_shift_bounds (envmap : List (String × Envelope))
    (df : List RunRecord) (s : EnforcementSummary)
    (hs : s ∈ summarize_l2_enforcement envmap df)
    (hwf : ∀ r ∈ df, flagWF r) :
    (0 ≤ s.tempo_requested_oob_rate ∧ s.tempo_requested_oob_rate ≤ 1) ∧
    (0 ≤ s.tempo_clamp_rate ∧ s.tempo_clamp_rate ≤ 1) ∧
    (0 ≤ s.tempo_effective_oob_rate ∧ s.tempo_effective_oob_rate ≤ 1) ∧
    (0 ≤ s.gain_requested_oob_rate ∧ s.gain_requested_oob_rate ≤ 1) ∧
    (0 ≤ s.gain_clamp_rate ∧ s.gain_clamp_rate ≤ 1) ∧
    (0 ≤ s.gain_effective_oob_rate ∧ s.gain_effective_oob_rate ≤ 1) ∧
    (0 ≤ s.accent_requested_oob_rate ∧ s.accent_requested_oob_rate ≤ 1) ∧
    (0 ≤ s.accent_clamp_rate ∧ s.accent_clamp_rate ≤ 1) ∧
    (0 ≤ s.accent_effective_oob_rate ∧ s.accent_effective_oob_rate ≤ 1) ∧
    (0 ≤ s.tempo_shift_mean ∧ 0 ≤ s.tempo_shift_p95 ∧ 0 ≤ s.tempo_shift_max ∧
      s.tempo_shift_p95 ≤ s.tempo_shift_max) ∧
    (0 ≤ s.gain_shift_mean ∧ 0 ≤ s.gain_shift_p95 ∧ 0 ≤ s.gain_shift_max ∧
      s.gain_shift_p95 ≤ s.gain_shift_max) ∧
    (0 ≤ s.accent_shift_mean ∧ 0 ≤ s.accent_shift_p95 ∧ 0 ≤ s.accent_shift_max ∧
      s.accent_shift_p95 ≤ s.accent_shift_max) := by
  obtain ⟨condition, envelope, rfl, hne⟩ := mem_summarize_l2 hs
  have hsubwf : ∀ r ∈ df.filter (fun r => decide (r.condition = condition)), flagWF r :=
    fun r hr => hwf r (List.mem_filter.mp hr).1
  simp only [l2_row]
  refine ⟨pct_unit _ _ fun r hr => optUnit (hsubwf r hr).1,
    pct_unit _ _ fun r hr => someUnit (hsubwf r hr).2.2.2.2.2.2.1,
    pct_unit _ _ fun r hr => optUnit (hsubwf r hr).2.1,
    pct_unit _ _ fun r hr => optUnit (hsubwf r hr).2.2.1,
    pct_unit _ _ fun r hr => someUnit (hsubwf r hr).2.2.2.2.2.2.2.1,
    pct_unit _ _ fun r hr => optUnit (hsubwf r hr).2.2.2.1,
    pct_unit _ _ fun r hr => optUnit (hsubwf r hr).2.2.2.2.1,
    pct_unit _ _ fun r hr => someUnit (hsubwf r hr).2.2.2.2.2.2.2.2,
    pct_unit _ _ fun r hr => optUnit (hsubwf r hr).2.2.2.2.2.1,
    shift_stats_bounds _ _ hne, shift_stats_bounds _ _ hne,
    shift_stats_bounds _ _ hne⟩

theorem C9_rates_and_shift_bounds_witness :
    (0 ≤ (l2_row "constrained_default" w9env [w9rec]).tempo_requested_oob_rate ∧
      (l2_row "constrained_default" w9env [w9rec]).tempo_requested_oob_rate ≤ 1) ∧
    (0 ≤ (l2_row "constrained_default" w9env [w9rec]).tempo_clamp_rate ∧
      (l2_row "constrained_default" w9env [w9rec]).tempo_clamp_rate ≤ 1) ∧
    (0 ≤ (l2_row "constrained_default" w9env [w9rec]).tempo_effective_oob_rate ∧
      (l2_row "constrained_default" w9env [w9rec]).tempo_effective_oob_rate ≤ 1) ∧
    (0 ≤ (l2_row "constrained_default" w9env [w9rec]).gain_requested_oob_rate ∧
      (l2_row "constrained_default" w9env [w9rec]).gain_requested_oob_rate ≤ 1) ∧
    (0 ≤ (l2_row "constrained_default" w9env [w9rec]).gain_clamp_rate ∧
      (l2_row "constrained_default" w9env [w9rec]).gain_clamp_rate ≤ 1) ∧
    (0 ≤ (l2_row "constrained_default" w9env [w9rec]).gain_effective_oob_rate ∧
      (l2_row "constrained_default" w9env [w9rec]).gain_effective_oob_rate ≤ 1) ∧
    (0 ≤ (l2_row "constrained_default" w9env [w9rec]).accent_requested_oob_rate ∧
      (l2_row "constrained_default" w9env [w9rec]).accent_requested_oob_rate ≤ 1) ∧
    (0 ≤ (l2_row "constrained_default" w9env [w9rec]).accent_clamp_rate ∧
      (l2_row "constrained_default" w9env [w9rec]).accent_clamp_rate ≤ 1) ∧
    (0 ≤ (l2_row "constrained_default" w9env [w9rec]).accent_effective_oob_rate ∧
      (l2_row "constrained_default" w9env [w9rec]).accent_effective_oob_rate ≤ 1) ∧
    (0 ≤ (l2_row "constrained_default" w9env [w9rec]).tempo_shift_mean ∧
      0 ≤ (l2_row "constrained_default" w9env [w9rec]).tempo_shift_p95 ∧
      0 ≤ (l2_row "constrained_default" w9env [w9rec]).tempo_shift_max ∧
      (l2_row "constrained_default" w9env [w9rec]).tempo_shift_p95 ≤
        (l2_row "constrained_default" w9env [w9rec]).tempo_shift_max) ∧
    (0 ≤ (l2_row "constrained_default" w9env [w9rec]).gain_shift_mean ∧
      0 ≤ (l2_row "constrained_default" w9env [w9rec]).gain_shift_p95 ∧
      0 ≤ (l2_row "constrained_default" w9env [w9rec]).gain_shift_max ∧
      (l2_row "constrained_default" w9env [w9rec]).gain_shift_p95 ≤
        (l2_row "constrained_default" w9env [w9rec]).gain_shift_max) ∧
    (0 ≤ (l2_row "constrained_default" w9env [w9rec]).accent_shift_mean ∧
      0 ≤ (l2_row "constrained_default" w9env [w9rec]).accent_shift_p95 ∧
      0 ≤ (l2_row "constrained_default" w9env [w9rec]).accent_shift_max ∧
      (l2_row "constrained_default" w9env [w9rec]).accent_shift_p95 ≤
        (l2_row "constrained_default" w9env [w9rec]).accent_shift_max) :=
  C9_rates_and_shift_bounds [("constrained_default", w9env)] [w9rec]
    (l2_row "constrained_default" w9env [w9rec])
    (by simp [summarize_l2_enforcement, w9rec, mkRow])
    (by
      intro r hr
      rw [List.mem_singleton] at hr
      subst hr
      exact mkRow_flagWF _ _ _ _ _ _ _ _ _ _ _)

/-- C9 counterexample: the enforcement summary produced for the `c9df`
group violates `mean ≤ p95` for the tempo shift: the p95 is `0` while
the mean is `1/21`. -/
theorem C9_counterexample_mean_gt_p95 :
    l2_row "constrained_default" c9env c9df ∈
        summarize_l2_enforcement [("constrained_default", c9env)] c9df ∧
      (l2_row "constrained_default" c9env c9df).tempo_shift_p95 <
        (l2_row "constrained_default" c9env c9df).tempo_shift_mean := by
  have hfil : c9df.filter (fun r => decide (r.condition = "constrained_default")) = c9df := by
    simp [c9df, c9recA, c9recB, mkRow]
  constructor
  · simp only [summarize_l2_enforcement]
    rw [if_neg (by decide), if_neg (by rw [hfil]; simp [c9df])]
    exact List.mem_cons_self _ _
  · have habs : c9df.map (fun r => |r.tempo_delta|) =
        [0,0,0,0,0,0,0,0,0,0,0,0,0,0,0,0,0,0,0,0,1] := by
      norm_num [c9df, c9recA, c9recB, mkRow, c9req, c9eff]
    have hp : shift_stats c9df (fun r => r.tempo_delta) =
        { mean := 1/21, p95 := 0, max := 1 } := by
      simp only [shift_stats, habs]
      have h19 : Int.toNat 19 = 19 := rfl
      rw [ShiftStats.mk.injEq]
      refine ⟨?_, ?_, ?_⟩
      · norm_num
      · norm_num [quantile95, sortAsc, List.insertionSort, List.orderedInsert,
          interpAt, h19]
      · norm_num [List.foldl, max_def]
    simp only [l2_row]
    rw [hfil, hp]
    norm_num
